import Mathlib

/-!
Verification of the heuristic core of the issue-triage assistant: the priority
scorer, the summarizer, the similarity-retriever body truncation, and the
identifier-resolution step, shallowly embedded from
`issue_triage_server.py` (tool-calling surface) and `main.py` (HTTP surface).
Python strings are modelled as lists of characters, the external vector
service as an explicit retrieval outcome / resolution oracle passed in.
-/

namespace IssueTriage

/-- Python `str`, modelled as a list of characters. -/
abbrev Str := List Char

/-- Python `s.lower()`. -/
def strLower (s : Str) : Str := s.map Char.toLower

/-- Python `pat in s` (substring test). -/
def strContainsSub (s pat : Str) : Bool := decide (pat <:+: s)

/-- An issue record as consumed by the heuristics: the fields read by the
scorer and the summarizer (`issue_triage_server.py` lines 80-91, 126-135;
`main.py` `IssueData` / the dicts built in `summarize_issues`). -/
structure Issue where
  issue_id : Nat
  number : Nat
  title : Str
  body : Str
  state : Str
  labels : List Str
  is_pull_request : Bool
  author_login : Str
deriving DecidableEq

/-- Body truncation in the similarity retriever
(`issue_triage_server.py` line 84, `main.py` line 147):
`body[:200] + "..." if len(body) > 200 else body`. -/
def truncateBody (b : Str) : Str :=
  if 200 < b.length then b.take 200 ++ "...".toList else b

/-! ## Priority scorer -/

/-- The 14 default high-priority keywords
(`issue_triage_server.py` lines 199-203, `main.py` lines 267-271). -/
def defaultKeywords : List Str :=
  ["critical".toList, "urgent".toList, "crash".toList, "bug".toList,
   "error".toList, "broken".toList, "security".toList,
   "vulnerability".toList, "data loss".toList, "performance".toList,
   "regression".toList, "blocker".toList, "production".toList,
   "outage".toList]

/-- Keyword match test: `keyword in issue_text.lower()`
(`issue_triage_server.py` line 217, `main.py` line 285). -/
def kwMatches (text k : Str) : Bool := strContainsSub (strLower text) k

/-- One iteration of the keyword loop: the accumulator carries
(`found_keywords`, `priority_score`); a match appends the keyword and adds 2
(`issue_triage_server.py` lines 215-219, `main.py` lines 283-287). -/
def kwStep (text : Str) (acc : List Str × Nat) (k : Str) : List Str × Nat :=
  if kwMatches text k then (acc.1 ++ [k], acc.2 + 2) else acc

/-- The keyword scan loop, started from `found_keywords = []`,
`priority_score = 0`. -/
def kwScan (text : Str) (kws : List Str) : List Str × Nat :=
  kws.foldl (kwStep text) ([], 0)

/-- Closed form of the matched-keyword list: the keywords of the list that
occur in the lower-cased text, in list order. -/
def foundKeywords (text : Str) (kws : List Str) : List Str :=
  kws.filter (kwMatches text)

/-- The fixed set of priority labels checked on each neighbor
(`issue_triage_server.py` line 234, `main.py` line 302). -/
def priorityLabels : List Str :=
  ["critical".toList, "high priority".toList, "urgent".toList,
   "bug".toList, "security".toList]

/-- Python `any(label.lower() in priority_labels for label in labels)`
(`issue_triage_server.py` line 235, `main.py` line 303). -/
def isHighPriorityNeighbor (iss : Issue) : Bool :=
  iss.labels.any (fun label => decide (strLower label ∈ priorityLabels))

/-- Number of neighbors whose state equals "open". -/
def similarOpenCount (ns : List Issue) : Nat :=
  ns.countP (fun i => decide (i.state = "open".toList))

/-- Number of neighbors carrying a priority label. -/
def similarHighPriority (ns : List Issue) : Nat :=
  ns.countP isHighPriorityNeighbor

/-- One iteration of the neighbor loop: the accumulator carries
(`similar_open_count`, `similar_high_priority`, `priority_score`)
(`issue_triage_server.py` lines 228-237, `main.py` lines 296-305). -/
def neighborStep (acc : Nat × Nat × Nat) (iss : Issue) : Nat × Nat × Nat :=
  ((if iss.state = "open".toList then acc.1 + 1 else acc.1),
   (if isHighPriorityNeighbor iss then acc.2.1 + 1 else acc.2.1),
   (if isHighPriorityNeighbor iss then acc.2.2 + 1 else acc.2.2))

/-- The neighbor loop, starting from zero counters and the score accumulated
by the keyword scan. -/
def neighborScan (ns : List Issue) (sc0 : Nat) : Nat × Nat × Nat :=
  ns.foldl neighborStep (0, 0, sc0)

/-- Full-path level mapping (`issue_triage_server.py` lines 248-255,
`main.py` lines 316-323). -/
def priorityLevelFull (s : Nat) : Str :=
  if 8 ≤ s then "Critical".toList
  else if 5 ≤ s then "High".toList
  else if 2 ≤ s then "Medium".toList
  else "Low".toList

/-- Fallback-path level mapping (`issue_triage_server.py` line 277). -/
def priorityLevelFallback (s : Nat) : Str :=
  if 4 ≤ s then "High".toList
  else if 2 ≤ s then "Medium".toList
  else "Low".toList

/-- The note attached on the keyword-only fallback path
(`issue_triage_server.py` line 284). -/
def fallbackNote : Str :=
  "Analysis based on keywords only - vector search unavailable".toList

/-- The fields of the priority assessment the claims are about (level,
score, matched keywords, the similarity counters of the full path, and the
degraded-analysis note of the fallback path). -/
structure PriorityHint where
  priority_level : Str
  priority_score : Nat
  found_keywords : List Str
  similar_issues_count : Option Nat
  similar_open_issues : Option Nat
  note : Option Str
deriving DecidableEq

/-- Outcome of the similarity retrieval: a neighbor list, or the
error-marker result `[{"error": ...}]` the retriever returns on failure
(`issue_triage_server.py` line 97). -/
inductive RetrievalResult where
  | ok (neighbors : List Issue)
  | err (msg : Str)
deriving DecidableEq

/-- Full analysis path of `get_priority_hint`
(`issue_triage_server.py` lines 209-265, identically `main.py`
lines 278-333): keyword scan, neighbor loop, the `similar_open_count > 3`
bonus, the `similar_high_priority` second addition, full level mapping. -/
def fullPath (text : Str) (kws : List Str) (ns : List Issue) : PriorityHint :=
  let fk := kwScan text kws
  let counters := neighborScan ns fk.2
  let sc2 := if 3 < counters.1 then counters.2.2 + 2 else counters.2.2
  let sc3 := if 0 < counters.2.1 then sc2 + counters.2.1 else sc2
  { priority_level := priorityLevelFull sc3
    priority_score := sc3
    found_keywords := fk.1
    similar_issues_count := some ns.length
    similar_open_issues := some counters.1
    note := none }

/-- Keyword-only fallback path of the tool-surface `get_priority_hint`
(`issue_triage_server.py` lines 267-285). -/
def fallbackPath (text : Str) (kws : List Str) : PriorityHint :=
  let fk := kwScan text kws
  { priority_level := priorityLevelFallback fk.2
    priority_score := fk.2
    found_keywords := fk.1
    similar_issues_count := none
    similar_open_issues := none
    note := some fallbackNote }

/-- Tool-surface keyword defaulting: only `None` is replaced by the default
list (`issue_triage_server.py` lines 198-203). -/
def resolveKeywordsMcp (kws0 : Option (List Str)) : List Str :=
  kws0.getD defaultKeywords

/-- HTTP-surface keyword defaulting, `request.priority_keywords or [...]`:
Python `or` also replaces an explicitly empty list
(`main.py` lines 267-271). -/
def resolveKeywordsHttp (kws0 : Option (List Str)) : List Str :=
  match kws0 with
  | none => defaultKeywords
  | some [] => defaultKeywords
  | some l => l

/-- Tool-surface `get_priority_hint` (`issue_triage_server.py`
lines 185-285): the full path runs iff the retrieval produced a non-empty
list whose first element carries no error marker; otherwise the keyword-only
fallback runs. -/
def getPriorityHintMcp (text : Str) (kws0 : Option (List Str))
    (r : RetrievalResult) : PriorityHint :=
  let kws := resolveKeywordsMcp kws0
  match r with
  | .ok (n :: ns) => fullPath text kws (n :: ns)
  | .ok [] => fallbackPath text kws
  | .err _ => fallbackPath text kws

/-- HTTP-surface `get_priority_hint` (`main.py` lines 260-336): no fallback
path — a retrieval failure propagates as an HTTP 500 error, and an empty
neighbor list still goes through the full path. -/
def getPriorityHintHttp (text : Str) (kws0 : Option (List Str))
    (r : RetrievalResult) : Except Str PriorityHint :=
  match r with
  | .err msg => .error ("Failed to find similar issues: ".toList ++ msg)
  | .ok ns => .ok (fullPath text (resolveKeywordsHttp kws0) ns)

/-! ## Summarizer -/

/-- The requested summary type (`summary_type` argument). -/
inductive SummaryType where
  | brief | detailed | themes
deriving DecidableEq

/-- The summary fields the claims are about (`issue_triage_server.py`
lines 142-176, `main.py` lines 219-250). `issues_count` is the
non-pull-request bucket the source calls `issues`. -/
structure Summary where
  total_issues : Nat
  open_issues : Nat
  closed_issues : Nat
  pull_requests : Nat
  issues_count : Nat
  common_labels : List (Str × Nat)
  common_themes : Option (List (Str × Nat))
deriving DecidableEq

/-- One update of the Python counting dict:
`counts[key] = counts.get(key, 0) + 1`. A dict is modelled as an
association list in key-insertion order. -/
def bumpCount (acc : List (Str × Nat)) (l : Str) : List (Str × Nat) :=
  if acc.any (fun p => decide (p.1 = l)) then
    acc.map (fun p => if p.1 = l then (p.1, p.2 + 1) else p)
  else acc ++ [(l, 1)]

/-- The counting loop over a list of keys, mirroring the Python dict
(first-occurrence key order). -/
def countList (ls : List Str) : List (Str × Nat) := ls.foldl bumpCount []

/-- The stable descending insertion of Python for `sorted(key=count, reverse=True)`:
an element is placed after every element of strictly larger count and before
the first element of smaller-or-equal count, so equal counts keep their
original relative order. -/
def insertDesc (x : Str × Nat) : List (Str × Nat) → List (Str × Nat)
  | [] => [x]
  | y :: ys => if x.2 < y.2 then y :: insertDesc x ys else x :: y :: ys

/-- Stable sort by count, descending: the model of
`sorted(counts.items(), key=lambda x: x[1], reverse=True)`. -/
def sortDesc : List (Str × Nat) → List (Str × Nat)
  | [] => []
  | x :: xs => insertDesc x (sortDesc xs)

/-- All labels of the resolved issues, concatenated in issue order
(`issue_triage_server.py` lines 151-153). -/
def allLabels (issues : List Issue) : List Str :=
  issues.flatMap (fun i => i.labels)

/-- Python `str.split()`: split on runs of whitespace, no empty tokens.
`cur` holds the characters of the current token in reverse. -/
def splitWsAux (cur : Str) : Str → List Str
  | [] => if cur.isEmpty then [] else [cur.reverse]
  | c :: rest =>
    if c.isWhitespace then
      if cur.isEmpty then splitWsAux [] rest
      else cur.reverse :: splitWsAux [] rest
    else splitWsAux (c :: cur) rest

def splitWs (s : Str) : List Str := splitWsAux [] s

/-- The whitespace tokens of `" ".join(titles).lower()`
(`issue_triage_server.py` lines 168-169). -/
def themeTokens (issues : List Issue) : List Str :=
  splitWs (strLower (List.intercalate " ".toList (issues.map (fun i => i.title))))

/-- The theme-counting loop: tokens of length at most 3 are skipped before
counting (`issue_triage_server.py` lines 170-173). -/
def themeCounts (issues : List Issue) : List (Str × Nat) :=
  (themeTokens issues).foldl
    (fun acc w => if 3 < w.length then bumpCount acc w else acc) []

/-- The summarizer applied to the resolved issue list
(`issue_triage_server.py` lines 138-178, `main.py` lines 215-252): the error
on an empty resolved set, the five counts, the label top-5, and — in themes
mode — the title-token top-10. -/
def summarizeIssues (stype : SummaryType) (issues : List Issue) :
    Except Str Summary :=
  match issues with
  | [] => .error "No issues found for the provided IDs".toList
  | _ :: _ => .ok
    { total_issues := issues.length
      open_issues := issues.countP (fun i => decide (i.state = "open".toList))
      closed_issues := issues.countP (fun i => decide (i.state = "closed".toList))
      pull_requests := issues.countP (fun i => i.is_pull_request)
      issues_count := issues.countP (fun i => !i.is_pull_request)
      common_labels := (sortDesc (countList (allLabels issues))).take 5
      common_themes :=
        match stype with
        | .themes => some ((sortDesc (themeCounts issues)).take 10)
        | _ => none }

/-! ## Identifier resolution -/

/-- Per-identifier resolution of the tool-surface summarizer
(`issue_triage_server.py` lines 117-136): for each id, one equality-filter
fetch with limit 1 against the service — modelled as the oracle `db` — and
the record is appended when found. The bulk variant of `main.py`
lines 180-198 is the instance `db := fun i => fetched.find? (·.issue_id = i)`
of the same shape. -/
def resolveIssues (db : Nat → Option Issue) (ids : List Nat) : List Issue :=
  ids.filterMap db

/-- The client-side lookup of the HTTP-surface summarizer over the bulk
fetch result (`main.py` lines 184-198, first match per id wins). -/
def resolveIssuesBulk (fetched : List Issue) (ids : List Nat) : List Issue :=
  resolveIssues (fun i => fetched.find? (fun o => o.issue_id = i)) ids

/-! ## Keyword-scan and neighbor-loop closed forms -/

theorem kwScan_go (text : Str) (kws : List Str) (acc : List Str × Nat) :
    kws.foldl (kwStep text) acc =
      (acc.1 ++ foundKeywords text kws,
       acc.2 + 2 * (foundKeywords text kws).length) := by
  induction kws generalizing acc with
  | nil => simp [foundKeywords]
  | cons k ks ih =>
    rw [List.foldl_cons, ih]
    unfold kwStep foundKeywords
    cases h : kwMatches text k <;>
      simp [foundKeywords, List.filter_cons, h, Nat.mul_succ] <;> omega

theorem kwScan_eq (text : Str) (kws : List Str) :
    kwScan text kws =
      (foundKeywords text kws, 2 * (foundKeywords text kws).length) := by
  unfold kwScan
  rw [kwScan_go]
  simp

theorem neighborScan_go (ns : List Issue) (acc : Nat × Nat × Nat) :
    ns.foldl neighborStep acc =
      (acc.1 + similarOpenCount ns, acc.2.1 + similarHighPriority ns,
       acc.2.2 + similarHighPriority ns) := by
  induction ns generalizing acc with
  | nil => simp [similarOpenCount, similarHighPriority]
  | cons n ns ih =>
    rw [List.foldl_cons, ih]
    rcases acc with ⟨a, b, c⟩
    unfold neighborStep similarOpenCount similarHighPriority
    simp only [List.countP_cons, decide_eq_true_eq, Prod.mk.injEq]
    refine ⟨?_, ?_, ?_⟩ <;> split_ifs <;> omega

theorem neighborScan_eq (ns : List Issue) (sc0 : Nat) :
    neighborScan ns sc0 =
      (similarOpenCount ns, similarHighPriority ns,
       sc0 + similarHighPriority ns) := by
  unfold neighborScan
  rw [neighborScan_go]
  simp

theorem fullPath_score (text : Str) (kws : List Str) (ns : List Issue) :
    (fullPath text kws ns).priority_score =
      2 * (foundKeywords text kws).length + 2 * similarHighPriority ns
        + (if 3 < similarOpenCount ns then 2 else 0) := by
  simp only [fullPath, kwScan_eq, neighborScan_eq]
  split_ifs <;> omega

theorem fallbackPath_score (text : Str) (kws : List Str) :
    (fallbackPath text kws).priority_score =
      2 * (foundKeywords text kws).length := by
  simp only [fallbackPath, kwScan_eq]

theorem fullPath_level (text : Str) (kws : List Str) (ns : List Issue) :
    (fullPath text kws ns).priority_level =
      priorityLevelFull (fullPath text kws ns).priority_score := rfl

/-- In a duplicate-free list, exactly one element is equal to any given
member. -/
theorem countP_eq_one_of_nodup {α : Type} [DecidableEq α] (l : List α)
    (hnd : l.Nodup) (a : α) (ha : a ∈ l) :
    l.countP (fun x => decide (x = a)) = 1 := by
  induction l with
  | nil => cases ha
  | cons b l ih =>
    rw [List.countP_cons]
    rcases List.mem_cons.mp ha with h | h
    · subst h
      have hz : l.countP (fun x => decide (x = a)) = 0 := by
        rw [List.countP_eq_zero]
        intro x hx
        simp only [decide_eq_true_eq]
        rintro rfl
        exact (List.nodup_cons.mp hnd).1 hx
      simp [hz]
    · have hb : ¬ (b = a) := by
        rintro rfl
        exact (List.nodup_cons.mp hnd).1 h
      have := ih (List.nodup_cons.mp hnd).2 h
      simp only [decide_eq_true_eq]
      rw [if_neg hb]
      omega

/-! ## Claim theorems: priority scorer -/

/-- C1: on the full path (retrieval returned at least one neighbor and no
error marker), the final priority score equals 2 per matched keyword plus 2
per neighbor carrying a high-priority label (1 in the loop and
`similar_high_priority` again afterwards) plus 2 when more than 3 neighbors
are open. -/
theorem full_path_score_closed_form (text : Str) (kws0 : Option (List Str))
    (n : Issue) (ns : List Issue) :
    (getPriorityHintMcp text kws0 (.ok (n :: ns))).priority_score =
      2 * (foundKeywords text (resolveKeywordsMcp kws0)).length
        + 2 * similarHighPriority (n :: ns)
        + (if 3 < similarOpenCount (n :: ns) then 2 else 0) :=
  fullPath_score text (resolveKeywordsMcp kws0) (n :: ns)

/-- C2: on the full path the computed level is exactly the threshold mapping
score ≥ 8 → Critical, 5 ≤ score < 8 → High, 2 ≤ score < 5 → Medium,
score < 2 → Low, and in particular 8 → Critical, 7 and 5 → High, 4 and
2 → Medium, 1 and 0 → Low. -/
theorem full_path_level_mapping :
    (∀ (text : Str) (kws0 : Option (List Str)) (n : Issue) (ns : List Issue),
        (getPriorityHintMcp text kws0 (.ok (n :: ns))).priority_level =
          priorityLevelFull
            (getPriorityHintMcp text kws0 (.ok (n :: ns))).priority_score) ∧
    (∀ s : Nat,
        (priorityLevelFull s = "Critical".toList ↔ 8 ≤ s) ∧
        (priorityLevelFull s = "High".toList ↔ 5 ≤ s ∧ s < 8) ∧
        (priorityLevelFull s = "Medium".toList ↔ 2 ≤ s ∧ s < 5) ∧
        (priorityLevelFull s = "Low".toList ↔ s < 2)) ∧
    priorityLevelFull 8 = "Critical".toList ∧
    priorityLevelFull 7 = "High".toList ∧
    priorityLevelFull 5 = "High".toList ∧
    priorityLevelFull 4 = "Medium".toList ∧
    priorityLevelFull 2 = "Medium".toList ∧
    priorityLevelFull 1 = "Low".toList ∧
    priorityLevelFull 0 = "Low".toList := by
  refine ⟨fun text kws0 n ns => rfl, fun s => ?_, by decide, by decide,
    by decide, by decide, by decide, by decide, by decide⟩
  unfold priorityLevelFull
  split_ifs with h1 h2 h3 <;> simp +decide <;> omega

/-- C3: whenever retrieval fails or returns no neighbors, the tool-surface
scorer skips the similarity analysis (no similarity counters in the output),
scores from keywords only, maps the score with the fallback thresholds
(High iff ≥ 4, Medium iff 2 ≤ s < 4, else Low, Critical unreachable), and
attaches the degraded-analysis note. -/
theorem fallback_keyword_only_scoring (text : Str) (kws0 : Option (List Str))
    (r : RetrievalResult)
    (h : r = .ok [] ∨ ∃ msg, r = .err msg) :
    (getPriorityHintMcp text kws0 r).priority_score =
      2 * (foundKeywords text (resolveKeywordsMcp kws0)).length ∧
    (getPriorityHintMcp text kws0 r).priority_level =
      priorityLevelFallback (getPriorityHintMcp text kws0 r).priority_score ∧
    (getPriorityHintMcp text kws0 r).similar_issues_count = none ∧
    (getPriorityHintMcp text kws0 r).similar_open_issues = none ∧
    (getPriorityHintMcp text kws0 r).note = some fallbackNote ∧
    (∀ s : Nat,
        (priorityLevelFallback s = "High".toList ↔ 4 ≤ s) ∧
        (priorityLevelFallback s = "Medium".toList ↔ 2 ≤ s ∧ s < 4) ∧
        (priorityLevelFallback s = "Low".toList ↔ s < 2)) ∧
    (∀ s : Nat, priorityLevelFallback s ≠ "Critical".toList) := by
  have hlv : ∀ s : Nat,
      (priorityLevelFallback s = "High".toList ↔ 4 ≤ s) ∧
      (priorityLevelFallback s = "Medium".toList ↔ 2 ≤ s ∧ s < 4) ∧
      (priorityLevelFallback s = "Low".toList ↔ s < 2) := by
    intro s
    unfold priorityLevelFallback
    split_ifs with h1 h2 <;> simp +decide <;> omega
  have hnc : ∀ s : Nat, priorityLevelFallback s ≠ "Critical".toList := by
    intro s
    unfold priorityLevelFallback
    split_ifs <;> decide
  have hfb : getPriorityHintMcp text kws0 r =
      fallbackPath text (resolveKeywordsMcp kws0) := by
    rcases h with h | ⟨msg, h⟩ <;> subst h <;> rfl
  rw [hfb]
  refine ⟨fallbackPath_score _ _, rfl, rfl, rfl, rfl, hlv, hnc⟩

/-- Witness for the fallback theorem at a concrete degraded input. -/
theorem fallback_keyword_only_scoring_witness :
    (getPriorityHintMcp "bug".toList none (.ok [])).priority_score =
      2 * (foundKeywords "bug".toList (resolveKeywordsMcp none)).length ∧
    (getPriorityHintMcp "bug".toList none (.ok [])).priority_level =
      priorityLevelFallback
        (getPriorityHintMcp "bug".toList none (.ok [])).priority_score ∧
    (getPriorityHintMcp "bug".toList none (.ok [])).similar_issues_count = none ∧
    (getPriorityHintMcp "bug".toList none (.ok [])).similar_open_issues = none ∧
    (getPriorityHintMcp "bug".toList none (.ok [])).note = some fallbackNote ∧
    (∀ s : Nat,
        (priorityLevelFallback s = "High".toList ↔ 4 ≤ s) ∧
        (priorityLevelFallback s = "Medium".toList ↔ 2 ≤ s ∧ s < 4) ∧
        (priorityLevelFallback s = "Low".toList ↔ s < 2)) ∧
    (∀ s : Nat, priorityLevelFallback s ≠ "Critical".toList) :=
  fallback_keyword_only_scoring "bug".toList none (.ok []) (Or.inl rfl)

/-- C4 counterexample: a keyword list with a duplicate entry yields a
duplicated `found_keywords`, so the universally quantified
no-duplicates property fails as stated. -/
theorem found_keywords_dup_counterexample :
    ¬ (kwScan "bug".toList ["bug".toList, "bug".toList]).1.Nodup := by decide

/-- C4 amended: for a keyword list without duplicate entries, each keyword
is matched by substring search against the lower-cased text, each match
contributes exactly +2 and appears exactly once in `found_keywords`, which
contains no duplicates even when a keyword occurs several times in the
text. -/
theorem keyword_scan_nodup_spec (text : Str) (kws : List Str)
    (hnd : kws.Nodup) :
    (kwScan text kws).1 = foundKeywords text kws ∧
    (kwScan text kws).2 = 2 * (kwScan text kws).1.length ∧
    (∀ k, k ∈ (kwScan text kws).1 ↔ k ∈ kws ∧ kwMatches text k = true) ∧
    (kwScan text kws).1.Nodup ∧
    (∀ k ∈ (kwScan text kws).1,
        (kwScan text kws).1.countP (fun x => decide (x = k)) = 1) := by
  rw [kwScan_eq]
  refine ⟨rfl, rfl, ?_, ?_, ?_⟩
  · intro k
    simp [foundKeywords, List.mem_filter]
  · exact hnd.filter _
  · intro k hk
    exact countP_eq_one_of_nodup _ (hnd.filter _) k hk

/-- Witness for the amended keyword-scan theorem at a concrete
duplicate-free keyword list. -/
theorem keyword_scan_nodup_spec_witness :
    ["bug".toList, "crash".toList].Nodup ∧
    ((kwScan "A bug Bug BUG".toList ["bug".toList, "crash".toList]).1 =
        foundKeywords "A bug Bug BUG".toList ["bug".toList, "crash".toList] ∧
      (kwScan "A bug Bug BUG".toList ["bug".toList, "crash".toList]).2 =
        2 * (kwScan "A bug Bug BUG".toList ["bug".toList, "crash".toList]).1.length ∧
      (∀ k, k ∈ (kwScan "A bug Bug BUG".toList ["bug".toList, "crash".toList]).1 ↔
          k ∈ ["bug".toList, "crash".toList] ∧
            kwMatches "A bug Bug BUG".toList k = true) ∧
      (kwScan "A bug Bug BUG".toList ["bug".toList, "crash".toList]).1.Nodup ∧
      (∀ k ∈ (kwScan "A bug Bug BUG".toList ["bug".toList, "crash".toList]).1,
          (kwScan "A bug Bug BUG".toList
              ["bug".toList, "crash".toList]).1.countP
            (fun x => decide (x = k)) = 1)) :=
  ⟨by decide,
    keyword_scan_nodup_spec "A bug Bug BUG".toList
      ["bug".toList, "crash".toList] (by decide)⟩

/-- C9: extending the keyword list by one entry (in particular by one that
matches) never decreases the priority score, for any fixed retrieval
outcome. -/
theorem score_monotone_in_keywords (text : Str) (kws : List Str) (k : Str)
    (r : RetrievalResult) :
    (getPriorityHintMcp text (some kws) r).priority_score ≤
      (getPriorityHintMcp text (some (kws ++ [k])) r).priority_score := by
  have hlen : (foundKeywords text kws).length ≤
      (foundKeywords text (kws ++ [k])).length := by
    unfold foundKeywords
    rw [List.filter_append]
    simp
  cases r with
  | ok ns =>
    cases ns with
    | nil =>
      show (fallbackPath _ _).priority_score ≤ (fallbackPath _ _).priority_score
      rw [fallbackPath_score, fallbackPath_score]
      simp [resolveKeywordsMcp] at *
      omega
    | cons n ns =>
      show (fullPath _ _ _).priority_score ≤ (fullPath _ _ _).priority_score
      rw [fullPath_score, fullPath_score]
      simp [resolveKeywordsMcp] at *
      omega
  | err msg =>
    show (fallbackPath _ _).priority_score ≤ (fallbackPath _ _).priority_score
    rw [fallbackPath_score, fallbackPath_score]
    simp [resolveKeywordsMcp] at *
    omega

/-- C7: a body of at most 200 characters passes through unmodified; a longer
body is truncated to its first 200 characters plus the ellipsis marker. -/
theorem body_truncation_spec (b : Str) :
    (b.length ≤ 200 → truncateBody b = b) ∧
    (200 < b.length → truncateBody b = b.take 200 ++ "...".toList) := by
  constructor <;> intro h <;> unfold truncateBody
  · rw [if_neg (by omega)]
  · rw [if_pos h]

/-- Witness for the truncation theorem at a 201-character body. -/
theorem body_truncation_spec_witness :
    200 < (List.replicate 201 'a').length ∧
    truncateBody (List.replicate 201 'a') =
      (List.replicate 201 'a').take 200 ++ "...".toList :=
  have h : 200 < (List.replicate 201 'a').length := by
    rw [List.length_replicate]
    omega
  ⟨h, (body_truncation_spec (List.replicate 201 'a')).2 h⟩

/-! ## Claim theorems: surface comparison -/

/-- A neutral concrete neighbor: closed, unlabeled, not a pull request. -/
def neutralIssue : Issue :=
  { issue_id := 1, number := 1, title := "t".toList, body := [],
    state := "closed".toList, labels := [], is_pull_request := false,
    author_login := "u".toList }

/-- C8 counterexample: with an explicitly empty `priority_keywords` list and
the same successful retrieval, the HTTP surface substitutes the default
keyword list (Python `or`) while the tool surface keeps the empty list, so
the two surfaces return different assessments for the same input. -/
theorem surfaces_disagree_on_empty_keywords :
    getPriorityHintHttp "critical".toList (some []) (.ok [neutralIssue]) =
      Except.ok (fullPath "critical".toList defaultKeywords [neutralIssue]) ∧
    (fullPath "critical".toList defaultKeywords
        [neutralIssue]).priority_score = 2 ∧
    (fullPath "critical".toList defaultKeywords
        [neutralIssue]).found_keywords = ["critical".toList] ∧
    (getPriorityHintMcp "critical".toList (some [])
        (.ok [neutralIssue])).priority_score = 0 ∧
    (getPriorityHintMcp "critical".toList (some [])
        (.ok [neutralIssue])).found_keywords = [] := by
  refine ⟨rfl, ?_, ?_, ?_, ?_⟩ <;> decide

/-- C8 amended: the two priority-hint surfaces agree whenever the keyword
list is omitted or non-empty and the retrieval succeeds with at least one
neighbor; they diverge on an explicitly empty keyword list (tool surface
keeps it, HTTP surface replaces it with the defaults), and on failed or
empty retrieval (tool-surface fallback versus HTTP error / full path). -/
theorem priority_surfaces_agree_amended (text : Str)
    (kws0 : Option (List Str)) (n : Issue) (ns : List Issue)
    (hk : kws0 = none ∨ ∃ k ks, kws0 = some (k :: ks)) :
    getPriorityHintHttp text kws0 (.ok (n :: ns)) =
      Except.ok (getPriorityHintMcp text kws0 (.ok (n :: ns))) := by
  have hres : resolveKeywordsHttp kws0 = resolveKeywordsMcp kws0 := by
    rcases hk with rfl | ⟨k, ks, rfl⟩ <;> rfl
  show Except.ok (fullPath text (resolveKeywordsHttp kws0) (n :: ns)) = _
  rw [hres]
  rfl

/-- Witness for the amended surface-agreement theorem with omitted
keywords. -/
theorem priority_surfaces_agree_amended_witness :
    getPriorityHintHttp "crash".toList none (.ok [neutralIssue]) =
      Except.ok (getPriorityHintMcp "crash".toList none
        (.ok [neutralIssue])) :=
  priority_surfaces_agree_amended "crash".toList none neutralIssue []
    (Or.inl rfl)

/-! ## Claim theorems: summarizer counts -/

/-- A boolean predicate and its negation split the length of a list
exactly. -/
theorem countP_add_countP_neg (l : List Issue) (p : Issue → Bool) :
    l.countP p + l.countP (fun i => !p i) = l.length := by
  induction l with
  | nil => simp
  | cons a l ih =>
    by_cases h : p a <;>
      simp [List.countP_cons, h] <;> omega

/-- The open and closed buckets never overlap, so together they are bounded
by the total. -/
theorem open_closed_le_length (l : List Issue) :
    l.countP (fun i => decide (i.state = "open".toList)) +
        l.countP (fun i => decide (i.state = "closed".toList)) ≤ l.length := by
  induction l with
  | nil => simp
  | cons a l ih =>
    have hne : ¬(a.state = "open".toList ∧ a.state = "closed".toList) := by
      rintro ⟨h1, h2⟩
      rw [h1] at h2
      exact absurd h2 (by decide)
    simp only [List.countP_cons, List.length_cons, decide_eq_true_eq]
    split_ifs with h1 h2 h3
    · exact absurd ⟨h1, h2⟩ hne
    · omega
    · omega
    · omega

/-- An issue whose state is neither "open" nor "closed". -/
def wontfixIssue : Issue :=
  { issue_id := 2, number := 2, title := "w".toList, body := [],
    state := "wontfix".toList, labels := [], is_pull_request := false,
    author_login := "u".toList }

/-- C5: every produced summary counts each record in exactly one of the two
pull-request buckets, so `pull_requests + issues = total_issues`; the open
and closed buckets only bound the total (`open + closed ≤ total`), and
equality fails for some inputs because other states land in neither
bucket. -/
theorem summary_count_identities (stype : SummaryType) (issues : List Issue)
    (s : Summary) (h : summarizeIssues stype issues = .ok s) :
    s.pull_requests + s.issues_count = s.total_issues ∧
    s.open_issues + s.closed_issues ≤ s.total_issues ∧
    (∃ issues2 s2, summarizeIssues stype issues2 = .ok s2 ∧
        s2.open_issues + s2.closed_issues < s2.total_issues) := by
  refine ⟨?_, ?_, ?_⟩
  · cases issues with
    | nil => cases h
    | cons a l =>
      cases h
      exact countP_add_countP_neg (a :: l) (fun i => i.is_pull_request)
  · cases issues with
    | nil => cases h
    | cons a l =>
      cases h
      exact open_closed_le_length (a :: l)
  · cases stype with
    | brief =>
      exact ⟨[wontfixIssue],
        { total_issues := 1, open_issues := 0, closed_issues := 0,
          pull_requests := 0, issues_count := 1, common_labels := [],
          common_themes := none }, rfl, by decide⟩
    | detailed =>
      exact ⟨[wontfixIssue],
        { total_issues := 1, open_issues := 0, closed_issues := 0,
          pull_requests := 0, issues_count := 1, common_labels := [],
          common_themes := none }, rfl, by decide⟩
    | themes =>
      exact ⟨[wontfixIssue],
        { total_issues := 1, open_issues := 0, closed_issues := 0,
          pull_requests := 0, issues_count := 1, common_labels := [],
          common_themes := some [] }, rfl, by decide⟩

/-- Witness for the count-identity theorem at a concrete one-element
summary. -/
theorem summary_count_identities_witness :
    (summarizeIssues SummaryType.brief [neutralIssue] = .ok
        { total_issues := 1, open_issues := 0, closed_issues := 1,
          pull_requests := 0, issues_count := 1, common_labels := [],
          common_themes := none }) ∧
    ({ total_issues := 1, open_issues := 0, closed_issues := 1,
        pull_requests := 0, issues_count := 1, common_labels := [],
        common_themes := none : Summary}.pull_requests +
        ({ total_issues := 1, open_issues := 0, closed_issues := 1,
            pull_requests := 0, issues_count := 1, common_labels := [],
            common_themes := none : Summary}).issues_count =
        ({ total_issues := 1, open_issues := 0, closed_issues := 1,
            pull_requests := 0, issues_count := 1, common_labels := [],
            common_themes := none : Summary}).total_issues ∧
      ({ total_issues := 1, open_issues := 0, closed_issues := 1,
          pull_requests := 0, issues_count := 1, common_labels := [],
          common_themes := none : Summary}).open_issues +
          ({ total_issues := 1, open_issues := 0, closed_issues := 1,
              pull_requests := 0, issues_count := 1, common_labels := [],
              common_themes := none : Summary}).closed_issues ≤
          ({ total_issues := 1, open_issues := 0, closed_issues := 1,
              pull_requests := 0, issues_count := 1, common_labels := [],
              common_themes := none : Summary}).total_issues ∧
      (∃ issues2 s2, summarizeIssues SummaryType.brief issues2 = .ok s2 ∧
          s2.open_issues + s2.closed_issues < s2.total_issues)) :=
  ⟨rfl,
    summary_count_identities SummaryType.brief [neutralIssue]
      { total_issues := 1, open_issues := 0, closed_issues := 1,
        pull_requests := 0, issues_count := 1, common_labels := [],
        common_themes := none } rfl⟩

/-! ## Claim theorems: label and theme ranking -/

/-- Non-increasing by occurrence count. -/
abbrev SortedDesc (l : List (Str × Nat)) : Prop :=
  l.Pairwise (fun a b => b.2 ≤ a.2)

theorem mem_insertDesc (x a : Str × Nat) (l : List (Str × Nat)) :
    a ∈ insertDesc x l ↔ a = x ∨ a ∈ l := by
  induction l with
  | nil => simp [insertDesc]
  | cons y ys ih =>
    unfold insertDesc
    by_cases h : x.2 < y.2
    · rw [if_pos h]
      simp only [List.mem_cons, ih]
      tauto
    · rw [if_neg h]
      simp only [List.mem_cons]

theorem sortedDesc_insertDesc (x : Str × Nat) (l : List (Str × Nat))
    (h : SortedDesc l) : SortedDesc (insertDesc x l) := by
  induction l with
  | nil => simp [insertDesc]
  | cons y ys ih =>
    unfold insertDesc
    rcases List.pairwise_cons.mp h with ⟨hy, hys⟩
    by_cases hlt : x.2 < y.2
    · rw [if_pos hlt]
      refine List.pairwise_cons.mpr ⟨?_, ih hys⟩
      intro b hb
      rcases (mem_insertDesc x b ys).mp hb with rfl | hb
      · omega
      · exact hy b hb
    · rw [if_neg hlt]
      refine List.pairwise_cons.mpr ⟨?_, h⟩
      intro b hb
      rcases List.mem_cons.mp hb with rfl | hb
      · omega
      · have := hy b hb
        omega

theorem sortedDesc_sortDesc (l : List (Str × Nat)) : SortedDesc (sortDesc l) := by
  induction l with
  | nil => simp [sortDesc]
  | cons x xs ih => exact sortedDesc_insertDesc x (sortDesc xs) ih

/-- Inserting an element does not disturb the relative order of the
elements of any fixed count: stability of the descending sort. -/
theorem filter_insertDesc (c : Nat) (x : Str × Nat) (l : List (Str × Nat)) :
    (insertDesc x l).filter (fun p => decide (p.2 = c)) =
      if x.2 = c then x :: l.filter (fun p => decide (p.2 = c))
      else l.filter (fun p => decide (p.2 = c)) := by
  induction l with
  | nil =>
    unfold insertDesc
    by_cases hc : x.2 = c <;> simp [List.filter_cons, hc]
  | cons y ys ih =>
    unfold insertDesc
    by_cases hlt : x.2 < y.2
    · rw [if_pos hlt]
      by_cases hc : x.2 = c
      · have hy : ¬(y.2 = c) := by omega
        rw [if_pos hc]
        simp [List.filter_cons, hy, ih, hc]
      · rw [if_neg hc]
        by_cases hy : y.2 = c <;> simp [List.filter_cons, hy, ih, hc]
    · rw [if_neg hlt]
      by_cases hc : x.2 = c <;>
        by_cases hy : y.2 = c <;>
          simp [List.filter_cons, hc, hy]

/-- The stable descending sort preserves, for every count value, the
relative order of the entries carrying that count. -/
theorem filter_sortDesc (c : Nat) (l : List (Str × Nat)) :
    (sortDesc l).filter (fun p => decide (p.2 = c)) =
      l.filter (fun p => decide (p.2 = c)) := by
  induction l with
  | nil => rfl
  | cons x xs ih =>
    show (insertDesc x (sortDesc xs)).filter _ = _
    rw [filter_insertDesc]
    by_cases hc : x.2 = c <;> simp [List.filter_cons, hc, ih]

/-- First-occurrence de-duplication, written as the evident fold. -/
def dedupStep (acc : List Str) (l : Str) : List Str :=
  if acc.any (fun k => decide (k = l)) then acc else acc ++ [l]

def dedupFold (ls : List Str) : List Str := ls.foldl dedupStep []

theorem map_fst_bump_map (acc : List (Str × Nat)) (l : Str) :
    (acc.map (fun p => if p.1 = l then (p.1, p.2 + 1) else p)).map Prod.fst =
      acc.map Prod.fst := by
  induction acc with
  | nil => rfl
  | cons a acc ih =>
    simp only [List.map_cons, ih]
    congr 1
    by_cases h : a.1 = l
    · rw [if_pos h]
    · rw [if_neg h]

theorem bumpCount_keys (acc : List (Str × Nat)) (l : Str) :
    (bumpCount acc l).map Prod.fst = dedupStep (acc.map Prod.fst) l := by
  unfold bumpCount dedupStep
  have hcond : (acc.map Prod.fst).any (fun k => decide (k = l)) =
      acc.any (fun p => decide (p.1 = l)) := by
    induction acc with
    | nil => rfl
    | cons a acc ih => simp [List.any_cons, ih]
  rw [hcond]
  by_cases h : acc.any (fun p => decide (p.1 = l))
  · rw [if_pos h, if_pos h, map_fst_bump_map]
  · rw [if_neg h, if_neg h, List.map_append]
    rfl

theorem countList_keys_go (ls : List Str) (acc : List (Str × Nat)) :
    (ls.foldl bumpCount acc).map Prod.fst =
      ls.foldl dedupStep (acc.map Prod.fst) := by
  induction ls generalizing acc with
  | nil => rfl
  | cons l ls ih =>
    rw [List.foldl_cons, List.foldl_cons, ih, bumpCount_keys]

/-- The counting dict lists its keys in first-occurrence order. -/
theorem countList_keys (ls : List Str) :
    (countList ls).map Prod.fst = dedupFold ls :=
  countList_keys_go ls []

/-- The length guard of the theme loop is the same as counting over the
pre-filtered token list. -/
theorem foldl_guard_filter (ws : List Str) (acc : List (Str × Nat)) :
    ws.foldl (fun acc w => if 3 < w.length then bumpCount acc w else acc) acc =
      (ws.filter (fun w => decide (3 < w.length))).foldl bumpCount acc := by
  induction ws generalizing acc with
  | nil => rfl
  | cons w ws ih =>
    rw [List.foldl_cons, List.filter_cons]
    by_cases h : 3 < w.length <;> simp [h, ih]

theorem mem_countList_go (ls : List Str) (acc : List (Str × Nat))
    (p : Str × Nat) (hp : p ∈ ls.foldl bumpCount acc) :
    p.1 ∈ acc.map Prod.fst ∨ p.1 ∈ ls := by
  induction ls generalizing acc with
  | nil =>
    left
    exact List.mem_map_of_mem Prod.fst hp
  | cons l ls ih =>
    rcases ih (bumpCount acc l) hp with h | h
    · rw [bumpCount_keys] at h
      unfold dedupStep at h
      by_cases hc : (acc.map Prod.fst).any (fun k => decide (k = l))
      · rw [if_pos hc] at h
        exact Or.inl h
      · rw [if_neg hc] at h
        rcases List.mem_append.mp h with h | h
        · exact Or.inl h
        · right
          simp only [List.mem_singleton] at h
          simp [h]
    · right
      exact List.mem_cons_of_mem _ h

/-- Every key of the counting dict comes from the counted list. -/
theorem mem_countList (ls : List Str) (p : Str × Nat)
    (hp : p ∈ countList ls) : p.1 ∈ ls := by
  rcases mem_countList_go ls [] p hp with h | h
  · cases h
  · exact h

/-- C6: the label top-5 and (in themes mode) the title-token top-10 are the
first elements of the stable descending-by-count sort of the
first-occurrence-ordered counting dict — so counts are non-increasing along
the output, entries of equal count keep the first-occurrence order of the
label/token in the input, and every counted theme token has length
strictly greater than 3. -/
theorem label_theme_ranking_spec (issues : List Issue) :
    SortedDesc (sortDesc (countList (allLabels issues))) ∧
    SortedDesc ((sortDesc (countList (allLabels issues))).take 5) ∧
    (∀ c : Nat,
        (sortDesc (countList (allLabels issues))).filter
            (fun p => decide (p.2 = c)) =
          (countList (allLabels issues)).filter (fun p => decide (p.2 = c))) ∧
    (countList (allLabels issues)).map Prod.fst = dedupFold (allLabels issues) ∧
    themeCounts issues =
      countList ((themeTokens issues).filter (fun w => decide (3 < w.length))) ∧
    SortedDesc (sortDesc (themeCounts issues)) ∧
    SortedDesc ((sortDesc (themeCounts issues)).take 10) ∧
    (∀ c : Nat,
        (sortDesc (themeCounts issues)).filter (fun p => decide (p.2 = c)) =
          (themeCounts issues).filter (fun p => decide (p.2 = c))) ∧
    (themeCounts issues).map Prod.fst =
      dedupFold ((themeTokens issues).filter (fun w => decide (3 < w.length))) ∧
    (themeCounts issues).all (fun p => decide (3 < p.1.length)) = true ∧
    (∀ stype : SummaryType,
        (summarizeIssues stype issues).toOption.map Summary.common_labels =
          if issues.isEmpty then none
          else some ((sortDesc (countList (allLabels issues))).take 5)) ∧
    ((summarizeIssues SummaryType.themes issues).toOption.map
          Summary.common_themes =
      if issues.isEmpty then none
      else some (some ((sortDesc (themeCounts issues)).take 10))) := by
  have hthm : themeCounts issues =
      countList ((themeTokens issues).filter (fun w => decide (3 < w.length))) :=
    foldl_guard_filter (themeTokens issues) []
  refine ⟨sortedDesc_sortDesc _,
    (sortedDesc_sortDesc _).sublist (List.take_sublist _ _),
    fun c => filter_sortDesc c _,
    countList_keys _,
    hthm,
    sortedDesc_sortDesc _,
    (sortedDesc_sortDesc _).sublist (List.take_sublist _ _),
    fun c => filter_sortDesc c _,
    ?_, ?_, ?_, ?_⟩
  · rw [hthm]
    exact countList_keys _
  · rw [List.all_eq_true]
    intro p hp
    rw [hthm] at hp
    have h2 := mem_countList _ p hp
    have h3 := List.mem_filter.mp h2
    simpa using h3.2
  · intro stype
    cases stype <;> cases issues <;> rfl
  · cases issues <;> rfl

/-! ## Claim theorems: resolution keeps duplicates -/

/-- When an identifier is the only one in the list resolving to a record,
the record occurs in the resolved list exactly as often as the identifier
occurs in the input. -/
theorem resolve_count (db : Nat → Option Issue) (i : Nat) (rec : Issue)
    (hdb : db i = some rec) (ids : List Nat)
    (huniq : ∀ j ∈ ids, db j = some rec → j = i) :
    (resolveIssues db ids).countP (fun x => decide (x = rec)) =
      ids.countP (fun j => decide (j = i)) := by
  revert huniq
  induction ids with
  | nil =>
    intro _
    simp [resolveIssues]
  | cons j ids ih =>
    intro huniq
    have ih' := ih (fun j' hj' => huniq j' (List.mem_cons_of_mem j hj'))
    unfold resolveIssues at ih' ⊢
    cases hj : db j with
    | none =>
      have hji : ¬(j = i) := by
        rintro rfl
        rw [hdb] at hj
        cases hj
      simp [List.filterMap_cons, hj, List.countP_cons, hji, ih']
    | some rcd =>
      by_cases hr : rcd = rec
      · subst hr
        have hji : j = i := huniq j (List.mem_cons_self j ids) hj
        subst hji
        simp [List.filterMap_cons, hj, List.countP_cons, ih']
      · have hji : ¬(j = i) := by
          rintro rfl
          rw [hdb] at hj
          injection hj with he
          exact hr he.symm
        simp [List.filterMap_cons, hj, List.countP_cons, hr, hji, ih']

/-- C10: the summarizer input identifiers are not de-duplicated: a record
resolved by identifier `i` appears in the resolved list once per occurrence
of `i`, every duplicated occurrence appends the record again, and therefore
every summary count and label frequency counts it once per occurrence. -/
theorem resolution_keeps_duplicates (db : Nat → Option Issue)
    (ids : List Nat) (i : Nat) (rec : Issue) (hdb : db i = some rec)
    (huniq : ∀ j ∈ ids, db j = some rec → j = i) :
    (resolveIssues db ids).countP (fun x => decide (x = rec)) =
        ids.countP (fun j => decide (j = i)) ∧
    resolveIssues db (ids ++ [i]) = resolveIssues db ids ++ [rec] ∧
    (∀ p : Issue → Bool, (resolveIssues db (ids ++ [i])).countP p =
        (resolveIssues db ids).countP p + (if p rec then 1 else 0)) ∧
    allLabels (resolveIssues db (ids ++ [i])) =
        allLabels (resolveIssues db ids) ++ rec.labels := by
  have happ : resolveIssues db (ids ++ [i]) = resolveIssues db ids ++ [rec] := by
    unfold resolveIssues
    rw [List.filterMap_append]
    simp [hdb]
  refine ⟨resolve_count db i rec hdb ids huniq, happ, ?_, ?_⟩
  · intro p
    rw [happ, List.countP_append]
    simp [List.countP_cons]
  · rw [happ]
    unfold allLabels
    rw [List.flatMap_append]
    simp

/-- Witness for the duplicate-resolution theorem: the identifier 1 occurs
twice, so the record is counted twice. -/
theorem resolution_keeps_duplicates_witness :
    ((resolveIssues (fun n => if n = 1 then some neutralIssue else none)
          [1, 2, 1]).countP (fun x => decide (x = neutralIssue)) =
        [1, 2, 1].countP (fun j => decide (j = 1)) ∧
      resolveIssues (fun n => if n = 1 then some neutralIssue else none)
          ([1, 2, 1] ++ [1]) =
        resolveIssues (fun n => if n = 1 then some neutralIssue else none)
          [1, 2, 1] ++ [neutralIssue] ∧
      (∀ p : Issue → Bool,
          (resolveIssues (fun n => if n = 1 then some neutralIssue else none)
              ([1, 2, 1] ++ [1])).countP p =
            (resolveIssues (fun n => if n = 1 then some neutralIssue else none)
                [1, 2, 1]).countP p + (if p neutralIssue then 1 else 0)) ∧
      allLabels (resolveIssues
          (fun n => if n = 1 then some neutralIssue else none)
          ([1, 2, 1] ++ [1])) =
        allLabels (resolveIssues
            (fun n => if n = 1 then some neutralIssue else none) [1, 2, 1]) ++
          neutralIssue.labels) :=
  resolution_keeps_duplicates (fun n => if n = 1 then some neutralIssue else none)
    [1, 2, 1] 1 neutralIssue (by decide) (by decide)

end IssueTriage
